import Mathlib

/-!
# Verification of the report-template rendering core

Shallow embedding of `report_template` (models.py, generator.py,
jira_client.py, formatters/docx.py, formatters/html.py, formatters/pdf.py)
and proofs of the specification's testable properties.

Python dictionaries with string keys are embedded either as association
lists (when the code iterates over them) or as functions
`String → Option Value` (when the code only reads/writes single keys).
Fallible Python code (raising exceptions) is embedded as `Except`.
-/

namespace ReportTemplate

/-! ## Enumerations (models.py) -/

/-- The `ReportType` enum from models.py. -/
inductive ReportType where
  | feature_dev
  | program_mgmt
  | engineering_init
  deriving DecidableEq, Repr

/-- Embeds `ReportType.value`: the string value of each enum member. -/
def ReportType.value : ReportType → String
  | .feature_dev => "feature_dev"
  | .program_mgmt => "program_mgmt"
  | .engineering_init => "engineering_init"

/-- The `OutputFormat` enum from models.py. -/
inductive OutputFormat where
  | markdown
  | html
  | pdf
  | docx
  deriving DecidableEq, Repr

/-- The `OutputFormat.value` strings. -/
def OutputFormat.value : OutputFormat → String
  | .markdown => "markdown"
  | .html => "html"
  | .pdf => "pdf"
  | .docx => "docx"

/-- Iteration order of the `OutputFormat` enum (declaration order in
models.py), as Python's `for output_format in OutputFormat` visits it. -/
def outputFormatList : List OutputFormat :=
  [.markdown, .html, .pdf, .docx]

/-- Iteration order of the `ReportType` enum. -/
def reportTypeList : List ReportType :=
  [.feature_dev, .program_mgmt, .engineering_init]

/-- The `Status` enum from models.py. -/
inductive Status where
  | not_started
  | in_progress
  | completed
  | blocked
  | on_hold
  deriving DecidableEq, Repr

/-- The `Status` member string values. -/
def Status.value : Status → String
  | .not_started => "Not Started"
  | .in_progress => "In Progress"
  | .completed => "Completed"
  | .blocked => "Blocked"
  | .on_hold => "On Hold"

/-- The `Priority` enum from models.py. -/
inductive Priority where
  | low
  | medium
  | high
  | critical
  deriving DecidableEq, Repr

/-- The `Priority` member string values. -/
def Priority.value : Priority → String
  | .low => "Low"
  | .medium => "Medium"
  | .high => "High"
  | .critical => "Critical"

/-! ## Milestone construction (models.py, `Milestone`)

`completion_percentage: int = Field(ge=0, le=100, default=0)`: pydantic
rejects construction when the integer is outside [0, 100], raising a
`ValidationError`; otherwise the record is created with the given value.
-/

/-- The `Milestone` record (models.py). -/
structure Milestone where
  name : String
  target_date : String
  status : Status
  completion_percentage : Int
  description : Option String
  deriving DecidableEq, Repr

/-- Pydantic construction of a `Milestone`: `Field(ge=0, le=100)` on
`completion_percentage` raises a `ValidationError` for out-of-range
integers and otherwise constructs the record. -/
def Milestone.construct (name : String) (target_date : String) (status : Status)
    (completion_percentage : Int) (description : Option String) :
    Except String Milestone :=
  if 0 ≤ completion_percentage ∧ completion_percentage ≤ 100 then
    .ok ⟨name, target_date, status, completion_percentage, description⟩
  else
    .error "ValidationError: completion_percentage out of range"

/-! ## JIRA priority mapping (jira_client.py, `JiraClient._map_priority`) -/

/-- Python's `str.lower()` on one character (ASCII range; the JIRA
priority vocabulary is ASCII). -/
def charLower (c : Char) : Char :=
  if 'A' ≤ c ∧ c ≤ 'Z' then Char.ofNat (c.toNat + 32) else c

/-- Python's `str.lower()`. -/
def pyLower (s : String) : String := ⟨s.data.map charLower⟩

/-- Embeds `JiraClient._map_priority`: lowercases the JIRA priority name and maps
it through a fixed lookup, falling through to `Priority.LOW.value`. -/
def map_priority (jira_priority : String) : String :=
  let priority_lower := pyLower jira_priority
  if priority_lower = "highest" ∨ priority_lower = "critical" ∨ priority_lower = "blocker" then
    Priority.critical.value
  else if priority_lower = "high" then
    Priority.high.value
  else if priority_lower = "medium" ∨ priority_lower = "normal" then
    Priority.medium.value
  else
    Priority.low.value

/-! ## Template resolution and generation control flow (generator.py) -/

/-- Errors raised by the generation pipeline. `keyError` embeds a Python
`KeyError` (dict lookup failure), `templateNotFound` the Jinja2
`TemplateNotFound` raised by `Environment.get_template`, `importError`
a missing optional dependency, `valueError` a `ValueError`. -/
inductive GenError where
  | keyError
  | templateNotFound (name : String)
  | importError (message : String)
  | valueError (message : String)
  deriving DecidableEq, Repr

/-- The `format_ext` dict literal inside
`ReportGenerator._get_template_name`.  It has entries for MARKDOWN, HTML
and PDF only; `none` models an absent key (so `format_ext[output_format]`
raises `KeyError`). -/
def format_ext : OutputFormat → Option String
  | .markdown => some "md"
  | .html => some "html"
  | .pdf => some "html"
  | .docx => none

/-- Embeds `ReportGenerator._get_template_name`: `format_ext[output_format]`
(raising `KeyError` when the key is absent) followed by
`f"{report_type.value}.{ext}.j2"`. -/
def get_template_name (report_type : ReportType) (output_format : OutputFormat) :
    Except GenError String :=
  match format_ext output_format with
  | some ext => .ok (report_type.value ++ "." ++ ext ++ ".j2")
  | none => .error .keyError

/-- Failure behaviour of `ReportGenerator.generate`, abstracting the
rendered content to `Unit`.  The templates directory is embedded as the
list of template names it contains; `weasy` states whether WeasyPrint is
importable.  Control flow follows generator.py lines 100-115: resolve the
template name when no override is given, load it (raising
`TemplateNotFound` when absent), render, and for PDF convert via
`html_to_pdf` (raising `ImportError` when WeasyPrint is missing). -/
def generateE (dir : List String) (weasy : Bool) (report_type : ReportType)
    (output_format : OutputFormat) (template_name : Option String) :
    Except GenError Unit := do
  let name ← match template_name with
    | some n => pure n
    | none => get_template_name report_type output_format
  if name ∈ dir then
    if output_format = .pdf then
      if weasy then pure () else .error (.importError "WeasyPrint is required for PDF generation. Install it with: pip install weasyprint")
    else
      pure ()
  else
    .error (.templateNotFound name)

/-- Embeds `ReportGenerator.list_templates`: for each report type, for each
output format, resolve the template name and record it when the file
exists in the templates directory.  The `KeyError` from
`_get_template_name` propagates. -/
def list_templates (dir : List String) :
    Except GenError (List (String × List String)) :=
  reportTypeList.foldlM (fun acc report_type => do
    let names ← outputFormatList.foldlM (fun ns output_format => do
      let template_name ← get_template_name report_type output_format
      pure (if template_name ∈ dir then ns ++ [template_name] else ns)) ([] : List String)
    pure (acc ++ [(report_type.value, names)])) []

/-- The `ext_to_format` dict literal in `ReportGenerator.generate_to_file`
(generator.py lines 142-150), applied to the lowercased path suffix with
`.get(..., OutputFormat.MARKDOWN)`. -/
def infer_format (suffix : String) : OutputFormat :=
  let s := pyLower suffix
  if s = ".md" then .markdown
  else if s = ".markdown" then .markdown
  else if s = ".html" then .html
  else if s = ".pdf" then .pdf
  else .markdown

/-! ## JIRA task synchronisation (jira_client.py, `JiraClient.sync_tasks`)

A task dictionary is embedded as a function `String → Option JValue`
(the code only reads and writes individual keys); the fetched JIRA data
dictionary (`issue_to_task_data(issue)`) is embedded as an association
list, because `sync_tasks` iterates over its `.items()`.  Fetching an
issue over the network (`get_issue` composed with `issue_to_task_data`)
is embedded as a parameter `fetch`, with `none` standing for the
exception branch (`except Exception`). -/

/-- A Python value stored in a task dictionary: `None`, a string, or a
list of strings (labels/tags). -/
inductive JValue where
  | null
  | str (s : String)
  | strList (l : List String)
  deriving DecidableEq, Repr

/-- Python truthiness of a `JValue` (`if jira_id:`). -/
def JValue.truthy : JValue → Bool
  | .null => false
  | .str s => s ≠ ""
  | .strList l => l ≠ []

/-- The emptiness test of the merge loop in `sync_tasks`:
`value is not None and value != ''` negated, i.e. the fetched value is
skipped exactly when it is `None` or the empty string. -/
def JValue.isEmptyVal : JValue → Bool
  | .null => true
  | .str s => s = ""
  | .strList _ => false

/-- A task dictionary: key → value, `none` meaning the key is absent. -/
def TaskDict := String → Option JValue

/-- Dictionary assignment `task[key] = value`. -/
def TaskDict.set (t : TaskDict) (k : String) (v : JValue) : TaskDict :=
  fun k' => if k' = k then some v else t k'

/-- Association-list lookup in the fetched JIRA data (Python dict lookup;
keys are unique in a dict, matching the first entry). -/
def alookup (l : List (String × JValue)) (k : String) : Option JValue :=
  match l with
  | [] => none
  | (k', v) :: rest => if k = k' then some v else alookup rest k

/-- The merge loop of `sync_tasks` (jira_client.py lines 232-234):
`for key, value in jira_data.items(): if value is not None and value != '':
task[key] = value`. -/
def mergeJiraData (task : TaskDict) (jira_data : List (String × JValue)) : TaskDict :=
  jira_data.foldl (fun t kv => if kv.2.isEmptyVal then t else t.set kv.1 kv.2) task

/-- One iteration of the `sync_tasks` loop body for a single task:
read `jira_id`, and when truthy fetch the issue and merge; a fetch
failure (`except Exception`) leaves the task unchanged. -/
def syncOne (fetch : JValue → Option (List (String × JValue))) (task : TaskDict) :
    TaskDict :=
  match task "jira_id" with
  | some jira_id =>
      if jira_id.truthy then
        match fetch jira_id with
        | some jira_data => mergeJiraData task jira_data
        | none => task
      else task
  | none => task

/-- Embeds `JiraClient.sync_tasks`: each task of the list is synced in place and
appended to `updated_tasks`. -/
def sync_tasks (fetch : JValue → Option (List (String × JValue)))
    (task_list : List TaskDict) : List TaskDict :=
  task_list.map (syncOne fetch)

/-! ## DOCX builder (formatters/docx.py)

`create_docx_report` receives a plain data dictionary (`Dict[str, Any]`).
The dictionary is embedded as a structure with one field per key the
builder reads, each wrapped in `Field` to distinguish an absent key
(`key in data` false / `data.get` returning the default) from a present
value.  Value types follow the schema of models.py under
`model_dump(mode="python")` and of the YAML/JSON inputs.  The produced
python-docx `Document` is embedded as the ordered list of blocks the
builder appends (headings, paragraphs, tables, list items), styling
aside, plus the footer text. -/

/-- A dictionary slot: the key is absent, or present with a value. -/
inductive Field (α : Type) where
  | absent
  | present (a : α)
  deriving DecidableEq, Repr

/-- Embeds `data.get(key, default)`. -/
def Field.getD {α : Type} : Field α → α → α
  | .absent, d => d
  | .present a, _ => a

/-- A date-typed dictionary value: a `datetime.date` object (carried as
its ISO rendering, which is what `strftime("%Y-%m-%d")` produces), a raw
string, or `None`. -/
inductive DateValue where
  | dateObj (iso : String)
  | strVal (v : String)
  | noneVal
  deriving DecidableEq, Repr

/-- Embeds `_format_date` (docx.py lines 151-157): a `date` is formatted
`%Y-%m-%d`, a string passes through, anything else gives `"N/A"`. -/
def format_date : DateValue → String
  | .dateObj iso => iso
  | .strVal v => v
  | .noneVal => "N/A"

/-- Embeds `data.get(key)` on a date slot: an absent key gives `None`, which
`_format_date` turns into `"N/A"` like an explicit `None`. -/
def Field.dateD : Field DateValue → DateValue
  | .absent => .noneVal
  | .present v => v

/-- A status/priority slot value: a dict (whose `"value"` key may be
absent) or a non-dict rendered through `str(...)` (the carried string is
that rendering). -/
inductive SP where
  | dictV (value : Option String)
  | strV (s : String)
  deriving DecidableEq, Repr

/-- Embeds `x.get("value", "N/A") if isinstance(x, dict) else str(x)`. -/
def SP.render : SP → String
  | .dictV (some v) => v
  | .dictV none => "N/A"
  | .strV s => s

/-- Python truthiness of a status value (`if "status" in data and
data["status"]`): an empty dict and an empty string are falsy. -/
def SP.truthy : SP → Bool
  | .dictV (some _) => true
  | .dictV none => false
  | .strV s => s ≠ ""

/-- Truthiness of a string-valued slot (`if data.get(key):`): the key is
present with a non-empty string. -/
def Field.strTruthy : Field String → Bool
  | .present s => s ≠ ""
  | .absent => false

/-- Truthiness of an `Optional[str]` slot (`if key in data and data[key]:`). -/
def Field.optStrTruthy : Field (Option String) → Bool
  | .present (some s) => s ≠ ""
  | _ => false

/-- Cell text for an `Optional[str]` slot read with
`x.get(key, "N/A")` and rendered through `str(...)`: absent gives
`"N/A"`, a present `None` gives `str(None) = "None"`. -/
def Field.cellNA : Field (Option String) → String
  | .absent => "N/A"
  | .present none => "None"
  | .present (some s) => s

/-- Cell text for the assignee slot, default `"Unassigned"`. -/
def Field.cellUnassigned : Field (Option String) → String
  | .absent => "Unassigned"
  | .present none => "None"
  | .present (some s) => s

/-- A team-member dictionary (`TeamMember.model_dump` shape). -/
structure TeamMemberData where
  name : Field String
  role : Field String
  email : Field (Option String)
  deriving DecidableEq, Repr

/-- A task dictionary as read by the DOCX task table. -/
structure TaskData where
  title : Field String
  assignee : Field (Option String)
  status : Field SP
  priority : Field SP
  jira_id : Field String
  target_start_date : Field DateValue
  target_end_date : Field DateValue
  due_date : Field DateValue
  deriving DecidableEq, Repr

/-- A milestone dictionary as read by the DOCX milestone table. -/
structure MilestoneData where
  name : Field String
  target_date : Field DateValue
  status : Field SP
  completion_percentage : Field Int
  deriving DecidableEq, Repr

/-- A risk dictionary. -/
structure RiskData where
  description : Field String
  impact : Field SP
  likelihood : Field SP
  mitigation : Field String
  owner : Field (Option String)
  deriving DecidableEq, Repr

/-- An implementation-phase dictionary (engineering_init reports). -/
structure PhaseData where
  name : Field String
  description : Field String
  duration : Field String
  deliverables : Field (List String)
  deriving DecidableEq, Repr

/-- The data dictionary passed to `create_docx_report`, typed per key.
Keys the three builders never read are not represented. -/
structure DocxData where
  title : Field String
  project_name : Field String
  author : Field String
  date : Field DateValue
  version : Field String
  summary : Field String
  executive_summary : Field String
  feature_name : Field String
  program_name : Field String
  initiative_name : Field String
  repository : Field (Option String)
  branch : Field (Option String)
  sprint : Field (Option String)
  status : Field SP
  team_members : Field (List TeamMemberData)
  objectives : Field (List String)
  requirements : Field (List String)
  technical_approach : Field String
  architecture_notes : Field String
  tasks : Field (List TaskData)
  progress_notes : Field String
  milestones : Field (List MilestoneData)
  testing_strategy : Field String
  deployment_plan : Field String
  risks : Field (List RiskData)
  dependencies : Field (List String)
  stakeholders : Field (List String)
  reporting_period : Field String
  budget_summary : Field String
  key_achievements : Field (List String)
  challenges : Field (List String)
  upcoming_activities : Field (List String)
  decisions_needed : Field (List String)
  kpis : Field (List (String × String))
  sponsors : Field (List String)
  scope : Field String
  technical_details : Field String
  implementation_phases : Field (List PhaseData)
  success_criteria : Field (List String)
  impact_analysis : Field String
  resources_required : Field String
  rollout_strategy : Field String
  deriving DecidableEq, Repr

/-- A document element appended by the builder: a heading with its level,
a paragraph, a table (rows of cell texts, header row first when the
table has one), or a bulleted list item. -/
inductive Block where
  | heading (level : Nat) (text : String)
  | para (text : String)
  | table (rows : List (List String))
  | bullet (text : String)
  deriving DecidableEq, Repr

/-- The embedded python-docx document: body blocks and footer text. -/
structure DocxDoc where
  blocks : List Block
  footer : String
  deriving DecidableEq, Repr

/-- Embeds `_add_table` (docx.py lines 113-136): empty rows give a
`"No data available."` paragraph; otherwise a table whose first row is
the headers, followed by a spacing paragraph. -/
def addTable (headers : List String) (rows : List (List String)) : List Block :=
  if rows = [] then [.para "No data available."]
  else [.table (headers :: rows), .para ""]

/-- Embeds `_add_list` (docx.py lines 139-148): an empty list gives a
`"None specified."` paragraph; otherwise one bulleted paragraph per item
followed by a spacing paragraph. -/
def addList (items : List String) : List Block :=
  if items = [] then [.para "None specified."]
  else items.map Block.bullet ++ [.para ""]

/-- Embeds `list.insert(1, x)`: insert at index 1. -/
def insertAt1 {α : Type} (x : α) : List α → List α
  | [] => [x]
  | h :: t => h :: x :: t

/-- The `metadata_fields` list built by `_add_metadata_section`
(docx.py lines 79-102). -/
def metadataFields (d : DocxData) : List (String × String) :=
  let fields := [("Project", d.project_name.getD "N/A"),
                 ("Author", d.author.getD "N/A"),
                 ("Date", format_date d.date.dateD),
                 ("Version", d.version.getD "1.0")]
  let fields := match d.feature_name with
    | .present v => insertAt1 ("Feature", v) fields
    | .absent => fields
  let fields := match d.program_name with
    | .present v => insertAt1 ("Program", v) fields
    | .absent => fields
  let fields := match d.initiative_name with
    | .present v => insertAt1 ("Initiative", v) fields
    | .absent => fields
  let fields := if d.repository.optStrTruthy then
      fields ++ [("Repository", (d.repository.getD none).getD "")] else fields
  let fields := if d.branch.optStrTruthy then
      fields ++ [("Branch", (d.branch.getD none).getD "")] else fields
  let fields := if d.sprint.optStrTruthy then
      fields ++ [("Sprint", (d.sprint.getD none).getD "")] else fields
  let fields := match d.status with
    | .present sv => if sv.truthy then fields ++ [("Status", sv.render)] else fields
    | .absent => fields
  fields

/-- Embeds `_add_metadata_section` (docx.py lines 73-110): a two-column
key/value table of the metadata fields, then a spacing paragraph. -/
def metadataBlocks (d : DocxData) : List Block :=
  [.table ((metadataFields d).map (fun p => [p.1, p.2])), .para ""]

/-- A row of the team table (docx.py lines 178-185). -/
def teamRow (m : TeamMemberData) : List String :=
  [m.name.getD "N/A", m.role.getD "N/A", m.email.cellNA]

/-- A row of the feature-dev task table (docx.py lines 212-228). -/
def taskRow (t : TaskData) : List String :=
  [t.title.getD "N/A",
   t.assignee.cellUnassigned,
   (t.status.getD (.dictV none)).render,
   (t.priority.getD (.dictV none)).render,
   t.jira_id.getD "N/A",
   format_date t.target_start_date.dateD,
   format_date t.target_end_date.dateD,
   format_date t.due_date.dateD]

/-- A row of the milestone table (docx.py lines 243-253). -/
def milestoneRow (m : MilestoneData) : List String :=
  [m.name.getD "N/A",
   format_date m.target_date.dateD,
   (m.status.getD (.dictV none)).render,
   toString (m.completion_percentage.getD 0) ++ "%"]

/-- The owner run appended to a detailed risk paragraph
(`if risk.get("owner"):`). -/
def ownerRun (owner : Field (Option String)) : String :=
  match owner with
  | .present (some s) => if s ≠ "" then "\nOwner: " ++ s else ""
  | _ => ""

/-- The blocks for one detailed risk entry (docx.py lines 273-290,
shared verbatim by the feature-dev and engineering-init builders):
a numbered level-2 heading and a paragraph of labelled runs. -/
def riskDetail (i : Nat) (r : RiskData) : List Block :=
  [.heading 2 (toString i ++ ". " ++ r.description.getD "Risk"),
   .para ("Impact: " ++ (r.impact.getD (.dictV none)).render ++ "\n"
        ++ "Likelihood: " ++ (r.likelihood.getD (.dictV none)).render ++ "\n"
        ++ "Mitigation: " ++ r.mitigation.getD "N/A"
        ++ ownerRun r.owner),
   .para ""]

/-- Embeds `for i, risk in enumerate(risks, 1): ...` over the detailed risk
entries. -/
def riskDetailBlocks (risks : List RiskData) : List Block :=
  (risks.enum.map (fun p => riskDetail (p.1 + 1) p.2)).flatten

/-- A row of the program-management risk table (docx.py lines 384-396). -/
def riskRow (r : RiskData) : List String :=
  [r.description.getD "N/A",
   (r.impact.getD (.dictV none)).render,
   (r.likelihood.getD (.dictV none)).render,
   r.mitigation.getD "N/A",
   r.owner.cellNA]

/-- The team section body shared by the three builders: a table when
team members exist, otherwise a placeholder paragraph plus spacing. -/
def teamSection (d : DocxData) : List Block :=
  let team := d.team_members.getD []
  if team = [] then [.para "No team members specified.", .para ""]
  else addTable ["Name", "Role", "Email"] (team.map teamRow)

/-- The milestone table section body shared by the three builders. -/
def milestoneSection (d : DocxData) : List Block :=
  let ms := d.milestones.getD []
  if ms = [] then [.para "No milestones defined.", .para ""]
  else addTable ["Milestone", "Target Date", "Status", "Completion"] (ms.map milestoneRow)

/-- Embeds `_create_feature_dev_report` (docx.py lines 160-304).  `today` is the
ISO rendering of `date.today()`, used by the footer default. -/
def create_feature_dev_report (d : DocxData) (today : String) : DocxDoc :=
  { blocks :=
      [.heading 0 (d.title.getD "Feature Development Report")]
      ++ metadataBlocks d
      ++ [.heading 1 "Executive Summary", .para (d.summary.getD "No summary provided."), .para ""]
      ++ [.heading 1 "Team"] ++ teamSection d
      ++ [.heading 1 "Objectives"] ++ addList (d.objectives.getD [])
      ++ [.heading 1 "Requirements"] ++ addList (d.requirements.getD [])
      ++ [.heading 1 "Technical Approach", .para (d.technical_approach.getD "To be determined."), .para ""]
      ++ (if d.architecture_notes.strTruthy then
            [.heading 2 "Architecture Notes", .para (d.architecture_notes.getD ""), .para ""]
          else [])
      ++ [.heading 1 "Tasks & Progress"]
      ++ (let tasks := d.tasks.getD []
          if tasks = [] then [.para "No tasks defined.", .para ""]
          else addTable ["Task", "Assignee", "Status", "Priority", "JIRA", "Start Date", "End Date", "Due Date"] (tasks.map taskRow))
      ++ (if d.progress_notes.strTruthy then
            [.heading 2 "Progress Notes", .para (d.progress_notes.getD ""), .para ""]
          else [])
      ++ [.heading 1 "Milestones"] ++ milestoneSection d
      ++ [.heading 1 "Testing Strategy", .para (d.testing_strategy.getD "To be defined."), .para ""]
      ++ [.heading 1 "Deployment Plan", .para (d.deployment_plan.getD "To be defined."), .para ""]
      ++ [.heading 1 "Risks & Mitigation"]
      ++ (let rs := d.risks.getD []
          if rs = [] then [.para "No risks identified.", .para ""]
          else riskDetailBlocks rs)
      ++ [.heading 1 "Dependencies"] ++ addList (d.dependencies.getD []),
    footer := "Generated on " ++ format_date (d.date.getD (.dateObj today)) }

/-- Embeds `_create_program_mgmt_report` (docx.py lines 307-420). -/
def create_program_mgmt_report (d : DocxData) (today : String) : DocxDoc :=
  { blocks :=
      [.heading 0 (d.title.getD "Program Management Report")]
      ++ metadataBlocks d
      ++ [.heading 1 "Executive Summary",
          .para (d.executive_summary.getD (d.summary.getD "No summary provided.")), .para ""]
      ++ [.heading 1 "Stakeholders"] ++ addList (d.stakeholders.getD [])
      ++ [.heading 1 "Team Composition"] ++ teamSection d
      ++ [.heading 1 "Key Performance Indicators (KPIs)"]
      ++ (let kpis := d.kpis.getD []
          if kpis = [] then [.para "No KPIs defined.", .para ""]
          else addTable ["Metric", "Value"] (kpis.map (fun p => [p.1, p.2])))
      ++ [.heading 1 "Milestones & Progress"] ++ milestoneSection d
      ++ [.heading 1 "Key Achievements"] ++ addList (d.key_achievements.getD [])
      ++ [.heading 1 "Challenges"] ++ addList (d.challenges.getD [])
      ++ [.heading 1 "Risks"]
      ++ (let rs := d.risks.getD []
          if rs = [] then [.para "No risks identified.", .para ""]
          else addTable ["Risk", "Impact", "Likelihood", "Mitigation", "Owner"] (rs.map riskRow))
      ++ [.heading 1 "Budget Summary", .para (d.budget_summary.getD "No budget information provided."), .para ""]
      ++ [.heading 1 "Upcoming Activities"] ++ addList (d.upcoming_activities.getD [])
      ++ [.heading 1 "Decisions Needed"] ++ addList (d.decisions_needed.getD []),
    footer := "Report generated on " ++ format_date (d.date.getD (.dateObj today)) }

/-- The blocks for one implementation phase (docx.py lines 475-487). -/
def phaseBlocks (i : Nat) (ph : PhaseData) : List Block :=
  [.heading 2 ("Phase " ++ toString i ++ ": " ++ ph.name.getD ("Phase " ++ toString i))]
  ++ (if ph.description.strTruthy then [.para (ph.description.getD "")] else [])
  ++ (if ph.duration.strTruthy then [.para ("Duration: " ++ ph.duration.getD "")] else [])
  ++ (match ph.deliverables with
      | .present ds => if ds ≠ [] then [.para "Deliverables:"] ++ addList ds else []
      | .absent => [])

/-- Embeds `_create_engineering_init_report` (docx.py lines 423-562). -/
def create_engineering_init_report (d : DocxData) (today : String) : DocxDoc :=
  { blocks :=
      [.heading 0 (d.title.getD "Engineering Initiative Report")]
      ++ metadataBlocks d
      ++ [.heading 1 "Executive Summary", .para (d.summary.getD "No summary provided."), .para ""]
      ++ [.heading 1 "Sponsors"] ++ addList (d.sponsors.getD [])
      ++ [.heading 1 "Team"] ++ teamSection d
      ++ [.heading 1 "Objectives"] ++ addList (d.objectives.getD [])
      ++ [.heading 1 "Scope", .para (d.scope.getD "To be defined."), .para ""]
      ++ [.heading 1 "Technical Details", .para (d.technical_details.getD "To be defined."), .para ""]
      ++ [.heading 1 "Implementation Phases"]
      ++ (let phases := d.implementation_phases.getD []
          if phases = [] then [.para "No implementation phases defined."]
          else (phases.enum.map (fun p => phaseBlocks (p.1 + 1) p.2)).flatten)
      ++ [.para ""]
      ++ [.heading 1 "Success Criteria"] ++ addList (d.success_criteria.getD [])
      ++ [.heading 1 "Milestones"] ++ milestoneSection d
      ++ [.heading 1 "Impact Analysis", .para (d.impact_analysis.getD "To be defined."), .para ""]
      ++ [.heading 1 "Resources Required", .para (d.resources_required.getD "To be defined."), .para ""]
      ++ [.heading 1 "Risks & Mitigation"]
      ++ (let rs := d.risks.getD []
          if rs = [] then [.para "No risks identified.", .para ""]
          else riskDetailBlocks rs)
      ++ [.heading 1 "Rollout Strategy", .para (d.rollout_strategy.getD "To be defined."), .para ""],
    footer := "Report generated on " ++ format_date (d.date.getD (.dateObj today)) }

/-- Embeds `create_docx_report` (docx.py lines 18-58): raises `ImportError`
when python-docx is missing, dispatches on the report-type string, and
raises `ValueError` on an unknown one. -/
def create_docx_report (docx_available : Bool) (d : DocxData) (today : String)
    (report_type : String) : Except GenError DocxDoc :=
  if ¬docx_available then
    .error (.importError "python-docx is required for DOCX generation. Install it with: pip install python-docx")
  else if report_type = "feature_dev" then .ok (create_feature_dev_report d today)
  else if report_type = "program_mgmt" then .ok (create_program_mgmt_report d today)
  else if report_type = "engineering_init" then .ok (create_engineering_init_report d today)
  else .error (.valueError ("Unknown report type: " ++ report_type))

/-! ## PDF conversion (formatters/pdf.py) -/

/-- The result of `HTML(string=html_content).write_pdf()`: the conversion
engine is an external library, so the produced bytes are represented by
the HTML document they were converted from. -/
structure PdfBytes where
  sourceHtml : String
  deriving DecidableEq, Repr

/-- Embeds `html_to_pdf` (pdf.py lines 14-35): raises `ImportError` when
WeasyPrint is not importable, else performs the one-shot conversion. -/
def html_to_pdf (weasyprint_available : Bool) (html_content : String) :
    Except GenError PdfBytes :=
  if ¬weasyprint_available then
    .error (.importError "WeasyPrint is required for PDF generation. Install it with: pip install weasyprint")
  else
    .ok ⟨html_content⟩

/-! ## Pydantic models and `model_dump` (models.py, generator.py line 96)

`ReportGenerator.generate` converts a `FeatureDevReport` (or the other
two record kinds) to a dictionary with `model_dump(mode="python")`:
every declared field becomes a present key; enum members stay enum
members (rendered by `str(...)` as `"ClassName.MEMBER_NAME"`); `date`
objects stay `date` objects; `None` stays `None`. -/

/-- Embeds `str(...)` of a `Status` enum member (`Enum.__str__`). -/
def Status.pyStr : Status → String
  | .not_started => "Status.NOT_STARTED"
  | .in_progress => "Status.IN_PROGRESS"
  | .completed => "Status.COMPLETED"
  | .blocked => "Status.BLOCKED"
  | .on_hold => "Status.ON_HOLD"

/-- Embeds `str(...)` of a `Priority` enum member. -/
def Priority.pyStr : Priority → String
  | .low => "Priority.LOW"
  | .medium => "Priority.MEDIUM"
  | .high => "Priority.HIGH"
  | .critical => "Priority.CRITICAL"

/-- The `TeamMember` model (models.py). -/
structure TeamMemberM where
  name : String
  role : String
  email : Option String
  deriving DecidableEq, Repr

/-- Embeds `model_dump` of a `TeamMember`. -/
def TeamMemberM.dump (m : TeamMemberM) : TeamMemberData :=
  { name := .present m.name, role := .present m.role, email := .present m.email }

/-- The `Task` model (models.py); dates carried as ISO strings. -/
structure TaskM where
  title : String
  assignee : Option String
  status : Status
  priority : Priority
  due_date : Option String
  description : Option String
  tags : List String
  deriving DecidableEq, Repr

/-- Embeds `model_dump` of a `Task`, restricted to the keys the DOCX task table
reads.  `jira_id`, `target_start_date` and `target_end_date` are not
model fields, so they are absent from the dump. -/
def TaskM.dump (t : TaskM) : TaskData :=
  { title := .present t.title,
    assignee := .present t.assignee,
    status := .present (.strV t.status.pyStr),
    priority := .present (.strV t.priority.pyStr),
    jira_id := .absent,
    target_start_date := .absent,
    target_end_date := .absent,
    due_date := .present (match t.due_date with
      | some iso => .dateObj iso
      | none => .noneVal) }

/-- Embeds `model_dump` of a `Milestone` (the record of `Milestone.construct`),
restricted to the keys the DOCX milestone table reads. -/
def Milestone.dump (m : Milestone) : MilestoneData :=
  { name := .present m.name,
    target_date := .present (.dateObj m.target_date),
    status := .present (.strV m.status.pyStr),
    completion_percentage := .present m.completion_percentage }

/-- The `Risk` model (models.py). -/
structure RiskM where
  description : String
  impact : Priority
  likelihood : Priority
  mitigation : String
  owner : Option String
  deriving DecidableEq, Repr

/-- Embeds `model_dump` of a `Risk`. -/
def RiskM.dump (r : RiskM) : RiskData :=
  { description := .present r.description,
    impact := .present (.strV r.impact.pyStr),
    likelihood := .present (.strV r.likelihood.pyStr),
    mitigation := .present r.mitigation,
    owner := .present r.owner }

/-- The `FeatureDevReport` model (models.py lines 114-132); the `date`
field is carried as the ISO rendering of the `date` object. -/
structure FeatureDevReportM where
  title : String
  project_name : String
  author : String
  date : String
  version : String
  summary : String
  feature_name : String
  repository : Option String
  branch : Option String
  sprint : Option String
  team_members : List TeamMemberM
  objectives : List String
  requirements : List String
  technical_approach : String
  architecture_notes : String
  tasks : List TaskM
  testing_strategy : String
  deployment_plan : String
  risks : List RiskM
  dependencies : List String
  milestones : List Milestone
  progress_notes : String
  deriving DecidableEq, Repr

/-- Embeds `model_dump(mode="python")` of a `FeatureDevReport`: every model
field becomes a present key; keys of the other two report kinds are
absent (`custom_fields` is dumped too but never read by the builder). -/
def FeatureDevReportM.dump (r : FeatureDevReportM) : DocxData :=
  { title := .present r.title,
    project_name := .present r.project_name,
    author := .present r.author,
    date := .present (.dateObj r.date),
    version := .present r.version,
    summary := .present r.summary,
    executive_summary := .absent,
    feature_name := .present r.feature_name,
    program_name := .absent,
    initiative_name := .absent,
    repository := .present r.repository,
    branch := .present r.branch,
    sprint := .present r.sprint,
    status := .absent,
    team_members := .present (r.team_members.map TeamMemberM.dump),
    objectives := .present r.objectives,
    requirements := .present r.requirements,
    technical_approach := .present r.technical_approach,
    architecture_notes := .present r.architecture_notes,
    tasks := .present (r.tasks.map TaskM.dump),
    progress_notes := .present r.progress_notes,
    milestones := .present (r.milestones.map Milestone.dump),
    testing_strategy := .present r.testing_strategy,
    deployment_plan := .present r.deployment_plan,
    risks := .present (r.risks.map RiskM.dump),
    dependencies := .present r.dependencies,
    stakeholders := .absent,
    reporting_period := .absent,
    budget_summary := .absent,
    key_achievements := .absent,
    challenges := .absent,
    upcoming_activities := .absent,
    decisions_needed := .absent,
    kpis := .absent,
    sponsors := .absent,
    scope := .absent,
    technical_details := .absent,
    implementation_phases := .absent,
    success_criteria := .absent,
    impact_analysis := .absent,
    resources_required := .absent,
    rollout_strategy := .absent }

/-- The minimal valid `FeatureDevReport` of the repository's own tests
(`test_docx.py::test_docx_with_minimal_data`), with an explicit date;
every optional field keeps its model default. -/
def minimalFeatureDev : FeatureDevReportM :=
  { title := "Minimal", project_name := "Project", author := "Author",
    date := "2024-01-01", version := "1.0", summary := "Summary",
    feature_name := "Feature", repository := none, branch := none,
    sprint := none, team_members := [], objectives := [], requirements := [],
    technical_approach := "", architecture_notes := "", tasks := [],
    testing_strategy := "", deployment_plan := "", risks := [],
    dependencies := [], milestones := [], progress_notes := "" }

/-! ## Spec-modelled Jinja templates (templates/*.j2)

The built-in Jinja templates (`feature_dev.md.j2`, `feature_dev.html.j2`,
and the program_mgmt / engineering_init counterparts) are part of this
repository but are not under src/ — only generator.py and the tests
refer to them.  Their section structure is therefore modelled from the
spec.  A rendered template is embedded as the ordered list of blocks it
emits; a heading of markdown level `n+1` (`n+1` hash marks) is recorded
as `Block.heading n`, matching the python-docx levels. -/

/-- Modelled from the spec: the built-in templates directory ships one
markdown and one HTML template per report kind (PDF reuses the HTML
template); the templates themselves are not under src/. -/
def builtin_templates : List String :=
  ["feature_dev.md.j2", "feature_dev.html.j2",
   "program_mgmt.md.j2", "program_mgmt.html.j2",
   "engineering_init.md.j2", "engineering_init.html.j2"]

/-- Markdown surface of the metadata fields: bold key/value lines. -/
def mdMetadataLines (d : DocxData) : List Block :=
  (metadataFields d).map (fun p => .para ("**" ++ p.1 ++ ":** " ++ p.2))

/-- Markdown surface of a bulleted list with its empty-list placeholder. -/
def mdList (items : List String) : List Block :=
  if items = [] then [.para "None specified."]
  else items.map Block.bullet

/-- Markdown surface of one detailed risk entry: the same numbered
level-2 heading as the rich-document builder, with the labelled values
on one line. -/
def mdRiskEntry (p : Nat × RiskData) : List Block :=
  [Block.heading 2 (toString (p.1 + 1) ++ ". " ++ p.2.description.getD "Risk"),
   Block.para ("Impact: " ++ (p.2.impact.getD (.dictV none)).render ++ " — Likelihood: "
     ++ (p.2.likelihood.getD (.dictV none)).render ++ " — Mitigation: "
     ++ p.2.mitigation.getD "N/A")]

/-- Markdown surface of one implementation-phase entry: the same
level-2 phase heading as the rich-document builder. -/
def mdPhaseEntry (p : Nat × PhaseData) : List Block :=
  [Block.heading 2 ("Phase " ++ toString (p.1 + 1) ++ ": "
     ++ p.2.name.getD ("Phase " ++ toString (p.1 + 1)))]
  ++ (if p.2.description.strTruthy then [Block.para (p.2.description.getD "")] else [])
  ++ (if p.2.duration.strTruthy then [Block.para ("Duration: " ++ p.2.duration.getD "")] else [])
  ++ (match p.2.deliverables with
      | .present ds => if ds ≠ [] then ds.map Block.bullet else []
      | .absent => [])

/-- Modelled from the spec: `feature_dev.md.j2`.  Emits the same
populated sections, in the same order, as the rich-document builder
(spec §4.3 invariant), in markdown surface encoding. -/
def mdTemplateFeatureDev (d : DocxData) : List Block :=
  [.heading 0 (d.title.getD "Feature Development Report")]
  ++ mdMetadataLines d
  ++ [.heading 1 "Executive Summary", .para (d.summary.getD "No summary provided.")]
  ++ [.heading 1 "Team"]
  ++ (let team := d.team_members.getD []
      if team = [] then [.para "No team members specified."]
      else [.table (["Name", "Role", "Email"] :: team.map teamRow)])
  ++ [.heading 1 "Objectives"] ++ mdList (d.objectives.getD [])
  ++ [.heading 1 "Requirements"] ++ mdList (d.requirements.getD [])
  ++ [.heading 1 "Technical Approach", .para (d.technical_approach.getD "To be determined.")]
  ++ (if d.architecture_notes.strTruthy then
        [.heading 2 "Architecture Notes", .para (d.architecture_notes.getD "")]
      else [])
  ++ [.heading 1 "Tasks & Progress"]
  ++ (let tasks := d.tasks.getD []
      if tasks = [] then [.para "No tasks defined."]
      else [.table (["Task", "Assignee", "Status", "Priority", "JIRA", "Start Date", "End Date", "Due Date"] :: tasks.map taskRow)])
  ++ (if d.progress_notes.strTruthy then
        [.heading 2 "Progress Notes", .para (d.progress_notes.getD "")]
      else [])
  ++ [.heading 1 "Milestones"]
  ++ (let ms := d.milestones.getD []
      if ms = [] then [.para "No milestones defined."]
      else [.table (["Milestone", "Target Date", "Status", "Completion"] :: ms.map milestoneRow)])
  ++ [.heading 1 "Testing Strategy", .para (d.testing_strategy.getD "To be defined.")]
  ++ [.heading 1 "Deployment Plan", .para (d.deployment_plan.getD "To be defined.")]
  ++ [.heading 1 "Risks & Mitigation"]
  ++ (let rs := d.risks.getD []
      if rs = [] then [.para "No risks identified."]
      else (rs.enum.map mdRiskEntry).flatten)
  ++ [.heading 1 "Dependencies"] ++ mdList (d.dependencies.getD [])

/-- Modelled from the spec: `program_mgmt.md.j2`. -/
def mdTemplateProgramMgmt (d : DocxData) : List Block :=
  [.heading 0 (d.title.getD "Program Management Report")]
  ++ mdMetadataLines d
  ++ [.heading 1 "Executive Summary",
      .para (d.executive_summary.getD (d.summary.getD "No summary provided."))]
  ++ [.heading 1 "Stakeholders"] ++ mdList (d.stakeholders.getD [])
  ++ [.heading 1 "Team Composition"]
  ++ (let team := d.team_members.getD []
      if team = [] then [.para "No team members specified."]
      else [.table (["Name", "Role", "Email"] :: team.map teamRow)])
  ++ [.heading 1 "Key Performance Indicators (KPIs)"]
  ++ (let kpis := d.kpis.getD []
      if kpis = [] then [.para "No KPIs defined."]
      else [.table (["Metric", "Value"] :: kpis.map (fun p => [p.1, p.2]))])
  ++ [.heading 1 "Milestones & Progress"]
  ++ (let ms := d.milestones.getD []
      if ms = [] then [.para "No milestones defined."]
      else [.table (["Milestone", "Target Date", "Status", "Completion"] :: ms.map milestoneRow)])
  ++ [.heading 1 "Key Achievements"] ++ mdList (d.key_achievements.getD [])
  ++ [.heading 1 "Challenges"] ++ mdList (d.challenges.getD [])
  ++ [.heading 1 "Risks"]
  ++ (let rs := d.risks.getD []
      if rs = [] then [.para "No risks identified."]
      else [.table (["Risk", "Impact", "Likelihood", "Mitigation", "Owner"] :: rs.map riskRow)])
  ++ [.heading 1 "Budget Summary", .para (d.budget_summary.getD "No budget information provided.")]
  ++ [.heading 1 "Upcoming Activities"] ++ mdList (d.upcoming_activities.getD [])
  ++ [.heading 1 "Decisions Needed"] ++ mdList (d.decisions_needed.getD [])

/-- Modelled from the spec: `engineering_init.md.j2`. -/
def mdTemplateEngineeringInit (d : DocxData) : List Block :=
  [.heading 0 (d.title.getD "Engineering Initiative Report")]
  ++ mdMetadataLines d
  ++ [.heading 1 "Executive Summary", .para (d.summary.getD "No summary provided.")]
  ++ [.heading 1 "Sponsors"] ++ mdList (d.sponsors.getD [])
  ++ [.heading 1 "Team"]
  ++ (let team := d.team_members.getD []
      if team = [] then [.para "No team members specified."]
      else [.table (["Name", "Role", "Email"] :: team.map teamRow)])
  ++ [.heading 1 "Objectives"] ++ mdList (d.objectives.getD [])
  ++ [.heading 1 "Scope", .para (d.scope.getD "To be defined.")]
  ++ [.heading 1 "Technical Details", .para (d.technical_details.getD "To be defined.")]
  ++ [.heading 1 "Implementation Phases"]
  ++ (let phases := d.implementation_phases.getD []
      if phases = [] then [.para "No implementation phases defined."]
      else (phases.enum.map mdPhaseEntry).flatten)
  ++ [.heading 1 "Success Criteria"] ++ mdList (d.success_criteria.getD [])
  ++ [.heading 1 "Milestones"]
  ++ (let ms := d.milestones.getD []
      if ms = [] then [.para "No milestones defined."]
      else [.table (["Milestone", "Target Date", "Status", "Completion"] :: ms.map milestoneRow)])
  ++ [.heading 1 "Impact Analysis", .para (d.impact_analysis.getD "To be defined.")]
  ++ [.heading 1 "Resources Required", .para (d.resources_required.getD "To be defined.")]
  ++ [.heading 1 "Risks & Mitigation"]
  ++ (let rs := d.risks.getD []
      if rs = [] then [.para "No risks identified."]
      else (rs.enum.map mdRiskEntry).flatten)
  ++ [.heading 1 "Rollout Strategy", .para (d.rollout_strategy.getD "To be defined.")]

/-! ## HTML projection (formatters/html.py; spec §4.3)

Per the spec, the HTML projector converts the markdown-equivalent
content block by block (markdown's `tables`/`fenced_code`/`toc`
extensions), optionally wrapping it in a fixed document shell.  A
markdown heading of `n+1` hash marks becomes `<h{n+1}>`. -/

/-- An HTML element produced by the markdown conversion. -/
inductive HtmlNode where
  | hTag (n : Nat) (text : String)
  | pTag (text : String)
  | tableTag (rows : List (List String))
  | liTag (text : String)
  deriving DecidableEq, Repr

/-- The markdown-to-HTML conversion of one block. -/
def blockToHtml : Block → HtmlNode
  | .heading lv t => .hTag (lv + 1) t
  | .para t => .pTag t
  | .table rows => .tableTag rows
  | .bullet t => .liTag t

/-- The markdown-to-HTML conversion of a document body. -/
def htmlOfBlocks (blocks : List Block) : List HtmlNode :=
  blocks.map blockToHtml

/-! ## Section-title extraction -/

/-- The heading content of a block, when it is one. -/
def headingOfBlock : Block → Option (Nat × String)
  | .heading lv t => some (lv, t)
  | _ => none

/-- The ordered list of headings (docx level, text) of a document body. -/
def headingsOf (blocks : List Block) : List (Nat × String) :=
  blocks.filterMap headingOfBlock

/-- The heading content of an HTML node, with `<h{n+1}>` mapped back to
docx level `n`. -/
def headingOfNode : HtmlNode → Option (Nat × String)
  | .hTag n t => some (n - 1, t)
  | _ => none

/-- The ordered list of headings of an HTML body. -/
def htmlHeadingsOf (nodes : List HtmlNode) : List (Nat × String) :=
  nodes.filterMap headingOfNode

/-- The level-1 section title of a block, when it is one (level 0 is
the document title, level 2 a subsection). -/
def sectionTitleOfBlock : Block → Option String
  | .heading 1 t => some t
  | _ => none

/-- The ordered list of level-1 section titles of a document body. -/
def sectionTitlesOf (blocks : List Block) : List String :=
  blocks.filterMap sectionTitleOfBlock

/-- States that `seg` occurs contiguously inside `l`. -/
def containsSeg (seg l : List Block) : Prop :=
  ∃ pre suf, l = pre ++ seg ++ suf

/-- The explicit placeholder texts the DOCX builder uses for missing or
empty data. -/
def placeholderStrings : List String :=
  ["N/A", "To be determined.", "To be defined.", "None specified.",
   "No summary provided.", "No team members specified.", "No tasks defined.",
   "No milestones defined.", "No risks identified.", "No data available.",
   "No KPIs defined.", "No implementation phases defined.",
   "No budget information provided.", "Unassigned"]

/-- A data dictionary with every key absent (e.g. an empty mapping). -/
def emptyDocxData : DocxData :=
  { title := .absent, project_name := .absent, author := .absent,
    date := .absent, version := .absent, summary := .absent,
    executive_summary := .absent, feature_name := .absent,
    program_name := .absent, initiative_name := .absent,
    repository := .absent, branch := .absent, sprint := .absent,
    status := .absent, team_members := .absent, objectives := .absent,
    requirements := .absent, technical_approach := .absent,
    architecture_notes := .absent, tasks := .absent,
    progress_notes := .absent, milestones := .absent,
    testing_strategy := .absent, deployment_plan := .absent,
    risks := .absent, dependencies := .absent, stakeholders := .absent,
    reporting_period := .absent, budget_summary := .absent,
    key_achievements := .absent, challenges := .absent,
    upcoming_activities := .absent, decisions_needed := .absent,
    kpis := .absent, sponsors := .absent, scope := .absent,
    technical_details := .absent, implementation_phases := .absent,
    success_criteria := .absent, impact_analysis := .absent,
    resources_required := .absent, rollout_strategy := .absent }

/-- A concrete local task used to exercise `sync_tasks`: it has a JIRA
id and a locally filled assignee. -/
def sampleLocalTask : TaskDict := fun k =>
  if k = "jira_id" then some (.str "PROJ-1")
  else if k = "assignee" then some (.str "Alice")
  else none

/-- A concrete fetch result whose assignee field comes back empty. -/
def sampleFetched : List (String × JValue) :=
  [("assignee", .str ""), ("title", .str "Fetched title")]

/-- A concrete fetch function returning `sampleFetched` for every id. -/
def sampleFetch : JValue → Option (List (String × JValue)) :=
  fun _ => some sampleFetched

/-- A `FeatureDevReport` whose optional list fields are all empty and
whose scalar fields are arbitrary. -/
def allListsEmptyRecord (t pn a dt v s fn ta an ts dp pns : String)
    (rep br sp : Option String) : FeatureDevReportM :=
  { title := t, project_name := pn, author := a, date := dt, version := v,
    summary := s, feature_name := fn, repository := rep, branch := br,
    sprint := sp, team_members := [], objectives := [], requirements := [],
    technical_approach := ta, architecture_notes := an, tasks := [],
    testing_strategy := ts, deployment_plan := dp, risks := [],
    dependencies := [], milestones := [], progress_notes := pns }

/-- The document body the DOCX builder produces for such a record. -/
def allListsEmptyBlocks (t pn a dt v s fn ta an ts dp pns : String)
    (rep br sp : Option String) (today : String) : List Block :=
  (create_feature_dev_report
    (FeatureDevReportM.dump (allListsEmptyRecord t pn a dt v s fn ta an ts dp pns rep br sp))
    today).blocks

/-- The fixed level-1 section titles of a feature-development report. -/
def featureDevSectionTitles : List String :=
  ["Executive Summary", "Team", "Objectives", "Requirements",
   "Technical Approach", "Tasks & Progress", "Milestones",
   "Testing Strategy", "Deployment Plan", "Risks & Mitigation",
   "Dependencies"]

/-- The heading a numbered risk entry contributes. -/
def riskHeadingEntry (p : Nat × RiskData) : Nat × String :=
  (2, toString (p.1 + 1) ++ ". " ++ p.2.description.getD "Risk")

/-- The heading a numbered implementation phase contributes. -/
def phaseHeadingEntry (p : Nat × PhaseData) : Nat × String :=
  (2, "Phase " ++ toString (p.1 + 1) ++ ": " ++ p.2.name.getD ("Phase " ++ toString (p.1 + 1)))

/-- The full ordered heading structure (level, text) of a
feature-development report, as a function of the populated fields. -/
def featureDevHeadingSpine (d : DocxData) : List (Nat × String) :=
  [(0, d.title.getD "Feature Development Report"), (1, "Executive Summary"), (1, "Team"),
   (1, "Objectives"), (1, "Requirements"), (1, "Technical Approach")]
  ++ (if d.architecture_notes.strTruthy then [(2, "Architecture Notes")] else [])
  ++ [(1, "Tasks & Progress")]
  ++ (if d.progress_notes.strTruthy then [(2, "Progress Notes")] else [])
  ++ [(1, "Milestones"), (1, "Testing Strategy"), (1, "Deployment Plan"), (1, "Risks & Mitigation")]
  ++ (if d.risks.getD [] = [] then [] else (d.risks.getD []).enum.map riskHeadingEntry)
  ++ [(1, "Dependencies")]

/-- The full ordered heading structure of a program-management report:
all of its headings are unconditional. -/
def programMgmtHeadingSpine (d : DocxData) : List (Nat × String) :=
  [(0, d.title.getD "Program Management Report"), (1, "Executive Summary"),
   (1, "Stakeholders"), (1, "Team Composition"), (1, "Key Performance Indicators (KPIs)"),
   (1, "Milestones & Progress"), (1, "Key Achievements"), (1, "Challenges"), (1, "Risks"),
   (1, "Budget Summary"), (1, "Upcoming Activities"), (1, "Decisions Needed")]

/-- The full ordered heading structure of an engineering-initiative
report. -/
def engineeringInitHeadingSpine (d : DocxData) : List (Nat × String) :=
  [(0, d.title.getD "Engineering Initiative Report"), (1, "Executive Summary"),
   (1, "Sponsors"), (1, "Team"), (1, "Objectives"), (1, "Scope"), (1, "Technical Details"),
   (1, "Implementation Phases")]
  ++ (if d.implementation_phases.getD [] = [] then []
      else (d.implementation_phases.getD []).enum.map phaseHeadingEntry)
  ++ [(1, "Success Criteria"), (1, "Milestones"), (1, "Impact Analysis"),
      (1, "Resources Required"), (1, "Risks & Mitigation")]
  ++ (if d.risks.getD [] = [] then [] else (d.risks.getD []).enum.map riskHeadingEntry)
  ++ [(1, "Rollout Strategy")]

/-! ## Shared helper lemmas -/

/-- A segment occurrence survives prepending. -/
theorem containsSeg_appL (l : List Block) {s m : List Block}
    (h : containsSeg s m) : containsSeg s (l ++ m) := by
  obtain ⟨pre, suf, rfl⟩ := h
  exact ⟨l ++ pre, suf, by simp [List.append_assoc]⟩

/-- A segment occurrence survives appending. -/
theorem containsSeg_appR (l : List Block) {s m : List Block}
    (h : containsSeg s m) : containsSeg s (m ++ l) := by
  obtain ⟨pre, suf, rfl⟩ := h
  exact ⟨pre, suf ++ l, by simp [List.append_assoc]⟩

/-- A two-element segment at the head of a list. -/
theorem containsSeg_head2 (x y : Block) (r : List Block) :
    containsSeg [x, y] (x :: y :: r) :=
  ⟨[], r, rfl⟩

/-- A segment occurrence in `A ++ B` also occurs in `(X ++ A) ++ B`. -/
theorem containsSeg_shift (X A B : List Block) {s : List Block}
    (h : containsSeg s (A ++ B)) : containsSeg s ((X ++ A) ++ B) := by
  obtain ⟨pre, suf, heq⟩ := h
  refine ⟨X ++ pre, suf, ?_⟩
  simp only [List.append_assoc]
  rw [heq]
  simp [List.append_assoc]

/-- The `filterMap` of an everywhere-`none` function is empty. -/
theorem filterMap_const_none {α β : Type} (f : α → Option β) (l : List α)
    (h : ∀ a, f a = none) : l.filterMap f = [] := by
  induction l with
  | nil => rfl
  | cons a t ih => simp [List.filterMap_cons, h, ih]

/-- The `filterMap` over a flattened map whose pieces extract to nothing. -/
theorem filterMap_flatten_nil {α β : Type} (g : α → List Block) (f : Block → Option β)
    (l : List α) (h : ∀ a, (g a).filterMap f = []) :
    ((l.map g).flatten).filterMap f = [] := by
  induction l with
  | nil => rfl
  | cons a t ih => simp [List.filterMap_append, h, ih]

/-- A bulleted list contributes no section titles. -/
theorem st_addList (items : List String) :
    (addList items).filterMap sectionTitleOfBlock = [] := by
  unfold addList
  split
  · rfl
  · rw [List.filterMap_append, List.filterMap_map,
      filterMap_const_none (sectionTitleOfBlock ∘ Block.bullet) items (fun a => rfl)]
    rfl

/-- A table contributes no section titles. -/
theorem st_addTable (headers : List String) (rows : List (List String)) :
    (addTable headers rows).filterMap sectionTitleOfBlock = [] := by
  unfold addTable
  split <;> rfl

/-- The metadata section contributes no section titles. -/
theorem st_metadataBlocks (d : DocxData) :
    (metadataBlocks d).filterMap sectionTitleOfBlock = [] := rfl

/-- The team section body contributes no section titles. -/
theorem st_teamSection (d : DocxData) :
    (teamSection d).filterMap sectionTitleOfBlock = [] := by
  unfold teamSection
  dsimp only
  split
  · rfl
  · exact st_addTable ..

/-- The milestone section body contributes no section titles. -/
theorem st_milestoneSection (d : DocxData) :
    (milestoneSection d).filterMap sectionTitleOfBlock = [] := by
  unfold milestoneSection
  dsimp only
  split
  · rfl
  · exact st_addTable ..

/-- Detailed risk entries contribute no level-1 section titles (their
headings are level 2). -/
theorem st_riskDetailBlocks (rs : List RiskData) :
    (riskDetailBlocks rs).filterMap sectionTitleOfBlock = [] := by
  unfold riskDetailBlocks
  exact filterMap_flatten_nil _ _ _ (fun p => rfl)

/-- Section-title extraction commutes with `if`. -/
theorem st_ite (c : Prop) [Decidable c] (a b : List Block) :
    (if c then a else b).filterMap sectionTitleOfBlock =
      if c then a.filterMap sectionTitleOfBlock else b.filterMap sectionTitleOfBlock :=
  apply_ite ..

/-! ## C4 — Milestone completion-percentage validation -/

/-- C4: constructing a `Milestone` fails exactly when
`completion_percentage` lies outside [0, 100], and every constructed
`Milestone` satisfies the bounds. -/
theorem milestone_completion_validated :
    (∀ (name td : String) (st : Status) (p : Int) (desc : Option String),
      (∃ m, Milestone.construct name td st p desc = .ok m) ↔ 0 ≤ p ∧ p ≤ 100)
    ∧ (∀ (name td : String) (st : Status) (p : Int) (desc : Option String)
        (m : Milestone), Milestone.construct name td st p desc = .ok m →
        0 ≤ m.completion_percentage ∧ m.completion_percentage ≤ 100) := by
  constructor
  · intro name td st p desc
    unfold Milestone.construct
    split
    · next h => exact ⟨fun _ => h, fun _ => ⟨_, rfl⟩⟩
    · next h =>
      refine ⟨fun ⟨m, hm⟩ => ?_, fun hb => absurd hb h⟩
      cases hm
  · intro name td st p desc m hm
    unfold Milestone.construct at hm
    split at hm
    · next h => cases hm; exact h
    · cases hm

/-- Witness for C4 at concrete inputs: 50 is accepted and the
constructed record satisfies the bounds; 150 is out of range. -/
theorem milestone_completion_validated_witness :
    (∃ m, Milestone.construct "Release" "2024-12-31" .in_progress 50 none = .ok m)
    ∧ (0 ≤ (Milestone.mk "Release" "2024-12-31" .in_progress 50 none).completion_percentage
        ∧ (Milestone.mk "Release" "2024-12-31" .in_progress 50 none).completion_percentage ≤ 100)
    ∧ ¬∃ m, Milestone.construct "Release" "2024-12-31" .in_progress 150 none = .ok m := by
  refine ⟨?_, ?_, ?_⟩
  · exact (milestone_completion_validated.1 "Release" "2024-12-31" .in_progress 50 none).mpr
      (by decide)
  · exact milestone_completion_validated.2 "Release" "2024-12-31" .in_progress 50 none
      (Milestone.mk "Release" "2024-12-31" .in_progress 50 none) rfl
  · intro hex
    have := (milestone_completion_validated.1 "Release" "2024-12-31" .in_progress 150 none).mp hex
    omega

/-! ## C9 — JIRA priority-to-severity lookup -/

/-- C9: `_map_priority` is the fixed case-insensitive lookup
highest/critical/blocker → Critical, high → High, medium/normal →
Medium, with every other string falling through to Low. -/
theorem map_priority_fixed_lookup :
    (∀ s : String,
      pyLower s = "highest" ∨ pyLower s = "critical" ∨ pyLower s = "blocker" →
      map_priority s = "Critical")
    ∧ (∀ s : String, pyLower s = "high" → map_priority s = "High")
    ∧ (∀ s : String, pyLower s = "medium" ∨ pyLower s = "normal" →
      map_priority s = "Medium")
    ∧ (∀ s : String,
      pyLower s ∉ (["highest", "critical", "blocker", "high", "medium", "normal"] : List String) →
      map_priority s = "Low") := by
  refine ⟨?_, ?_, ?_, ?_⟩
  · intro s h
    rcases h with h | h | h <;> simp [map_priority, h, Priority.value]
  · intro s h
    simp [map_priority, h, Priority.value]
  · intro s h
    rcases h with h | h <;> simp [map_priority, h, Priority.value]
  · intro s h
    simp only [List.mem_cons, List.not_mem_nil, or_false, not_or] at h
    obtain ⟨h1, h2, h3, h4, h5, h6⟩ := h
    simp [map_priority, h1, h2, h3, h4, h5, h6, Priority.value]

/-- Witness for C9 at concrete inputs from each bucket, including the
case-insensitive ones. -/
theorem map_priority_fixed_lookup_witness :
    map_priority "Blocker" = "Critical" ∧ map_priority "HIGH" = "High"
    ∧ map_priority "normal" = "Medium" ∧ map_priority "Urgent" = "Low" :=
  ⟨map_priority_fixed_lookup.1 "Blocker" (by decide),
   map_priority_fixed_lookup.2.1 "HIGH" (by decide),
   map_priority_fixed_lookup.2.2.1 "normal" (by decide),
   map_priority_fixed_lookup.2.2.2 "Urgent" (by decide)⟩

/-! ## C10 — the missing DOCX entry in `format_ext` -/

/-- C10: `list_templates` raises `KeyError` on every invocation, and
`generate` raises `KeyError` whenever the format is DOCX and no explicit
template name is given, because `_get_template_name`'s map has no DOCX
entry. -/
theorem list_templates_always_keyerror :
    (∀ dir : List String, list_templates dir = .error .keyError)
    ∧ (∀ (dir : List String) (weasy : Bool) (rt : ReportType),
        generateE dir weasy rt .docx none = .error .keyError) :=
  ⟨fun _ => rfl, fun _ _ _ => rfl⟩

/-! ## C1 — generation in all four formats -/

/-- C1 (failing part evaluated): `generate` on a valid minimal
feature-dev record with `OutputFormat.DOCX` and no template override
raises `KeyError` instead of succeeding, for any templates directory
contents; in particular for the built-in one. -/
theorem generate_docx_keyerror_on_valid_record :
    generateE builtin_templates true .feature_dev .docx none = .error .keyError
    ∧ (∃ m, Milestone.construct "MVP" "2024-12-31" .in_progress 75 none = .ok m) :=
  ⟨rfl, ⟨_, rfl⟩⟩

/-! ## C2 — format inference from the output extension -/

/-- C2 (evaluated at the failing inputs): `generate_to_file`'s
extension map sends `.docx` and `.doc` to Markdown (the `.get` default),
not to the DOCX format, while the recognised extensions behave as
documented. -/
theorem infer_format_docx_gives_markdown :
    infer_format ".docx" = .markdown ∧ infer_format ".doc" = .markdown
    ∧ OutputFormat.markdown ≠ OutputFormat.docx
    ∧ infer_format ".md" = .markdown ∧ infer_format ".markdown" = .markdown
    ∧ infer_format ".html" = .html ∧ infer_format ".pdf" = .pdf :=
  ⟨rfl, rfl, by decide, rfl, rfl, rfl, rfl⟩

/-! ## C7 — template resolution and NotFound errors -/

/-- C7 (counterexample): for the DOCX format with no override the
resolver does not produce the conventional name; generation raises
`KeyError` even though the conventionally named template
`feature_dev.docx.j2` is present in the directory, and `KeyError` is not
a template-NotFound error. -/
theorem resolver_docx_keyerror_counterexample :
    generateE ["feature_dev.docx.j2"] true .feature_dev .docx none = .error .keyError
    ∧ "feature_dev.docx.j2" ∈ (["feature_dev.docx.j2"] : List String)
    ∧ ∀ name, GenError.keyError ≠ GenError.templateNotFound name :=
  ⟨rfl, by decide, fun _ h => by cases h⟩

/-- C7 (amended): for Markdown, HTML and PDF the resolver
deterministically yields `{kind}.{ext}.j2` (PDF sharing the html
extension), and generation fails with a template-NotFound error exactly
when the effective template — resolved, or explicitly overridden — is
absent from the templates directory. -/
theorem resolver_notfound_iff_template_absent :
    (∀ (rt : ReportType) (of : OutputFormat), of ≠ .docx →
      ∃ e, format_ext of = some e
        ∧ get_template_name rt of = .ok (rt.value ++ "." ++ e ++ ".j2"))
    ∧ (∀ (dir : List String) (weasy : Bool) (rt : ReportType)
        (of : OutputFormat) (tn : Option String) (name : String),
        (tn = some name ∨ (tn = none ∧ get_template_name rt of = .ok name)) →
        (generateE dir weasy rt of tn = .error (.templateNotFound name) ↔ name ∉ dir)) := by
  constructor
  · intro rt of hof
    cases of with
    | markdown => exact ⟨"md", rfl, rfl⟩
    | html => exact ⟨"html", rfl, rfl⟩
    | pdf => exact ⟨"html", rfl, rfl⟩
    | docx => exact absurd rfl hof
  · intro dir weasy rt of tn name htn
    have hgen : generateE dir weasy rt of tn =
        (if name ∈ dir then
          if of = .pdf then
            if weasy then pure () else .error (.importError "WeasyPrint is required for PDF generation. Install it with: pip install weasyprint")
          else pure ()
        else .error (.templateNotFound name)) := by
      rcases htn with rfl | ⟨rfl, hres⟩
      · rfl
      · show Except.bind (get_template_name rt of) _ = _
        rw [hres]
        rfl
    rw [hgen]
    by_cases hmem : name ∈ dir
    · rw [if_pos hmem]
      constructor
      · intro h
        exfalso
        split at h
        · split at h <;> simp [pure, Except.pure] at h
        · simp [pure, Except.pure] at h
      · intro h
        exact absurd hmem h
    · rw [if_neg hmem]
      simp [hmem]

/-- Witness for C7's amended theorem: resolving feature_dev + Markdown
gives `feature_dev.md.j2`, and generating with an override template
absent from an empty directory fails with NotFound for that name. -/
theorem resolver_notfound_iff_template_absent_witness :
    (∃ e, format_ext .markdown = some e
      ∧ get_template_name .feature_dev .markdown = .ok ("feature_dev" ++ "." ++ e ++ ".j2"))
    ∧ generateE [] true .feature_dev .markdown (some "custom.j2") =
        .error (.templateNotFound "custom.j2") :=
  ⟨resolver_notfound_iff_template_absent.1 .feature_dev .markdown (by decide),
   (resolver_notfound_iff_template_absent.2 [] true .feature_dev .markdown
      (some "custom.j2") "custom.j2" (Or.inl rfl)).mpr (by decide)⟩

/-! ## C8 — optional-dependency errors are distinct and non-fatal -/

/-- C8: with WeasyPrint missing, `html_to_pdf` raises an `ImportError`
naming WeasyPrint; with python-docx missing, `create_docx_report` raises
an `ImportError` naming python-docx; and the Markdown/HTML generation
paths are untouched by the WeasyPrint flag. -/
theorem optional_dependency_import_errors :
    (∀ html : String, html_to_pdf false html =
      .error (.importError "WeasyPrint is required for PDF generation. Install it with: pip install weasyprint"))
    ∧ (∀ (d : DocxData) (today rt : String), create_docx_report false d today rt =
      .error (.importError "python-docx is required for DOCX generation. Install it with: pip install python-docx"))
    ∧ (∀ (dir : List String) (w w' : Bool) (rt : ReportType) (tn : Option String)
        (of : OutputFormat), of = .markdown ∨ of = .html →
        generateE dir w rt of tn = generateE dir w' rt of tn) := by
  refine ⟨fun _ => rfl, fun _ _ _ => rfl, ?_⟩
  rintro dir w w' rt tn of (rfl | rfl) <;> cases tn <;> rfl

/-- Witness for C8: Markdown generation gives the same result whether or
not WeasyPrint is available. -/
theorem optional_dependency_import_errors_witness :
    generateE builtin_templates false .feature_dev .markdown none =
      generateE builtin_templates true .feature_dev .markdown none
    ∧ html_to_pdf false "<html></html>" =
      .error (.importError "WeasyPrint is required for PDF generation. Install it with: pip install weasyprint") :=
  ⟨optional_dependency_import_errors.2.2 builtin_templates false true .feature_dev
      none .markdown (Or.inl rfl),
   optional_dependency_import_errors.1 "<html></html>"⟩

/-! ## C5 — the JIRA sync overlay never overwrites with empty values -/

/-- Lookup misses when the key is not among the dictionary's keys. -/
theorem alookup_eq_none {l : List (String × JValue)} {k : String}
    (h : k ∉ l.map Prod.fst) : alookup l k = none := by
  induction l with
  | nil => rfl
  | cons kv rest ih =>
    obtain ⟨k0, v0⟩ := kv
    simp only [List.map_cons, List.mem_cons, not_or] at h
    simp [alookup, h.1, ih h.2]

/-- Characterisation of the merge loop: a key keeps its local value
unless the fetched dictionary holds a non-empty value for it. -/
theorem mergeJiraData_lookup (task : TaskDict) (jd : List (String × JValue))
    (k : String) (hnd : (jd.map Prod.fst).Nodup) :
    mergeJiraData task jd k =
      (match alookup jd k with
       | some v => if v.isEmptyVal then task k else some v
       | none => task k) := by
  induction jd generalizing task with
  | nil => rfl
  | cons kv rest ih =>
    obtain ⟨k0, v0⟩ := kv
    simp only [List.map_cons, List.nodup_cons] at hnd
    have hstep : mergeJiraData task ((k0, v0) :: rest) =
        mergeJiraData (if v0.isEmptyVal then task else task.set k0 v0) rest := rfl
    rw [hstep, ih _ hnd.2]
    by_cases hk : k = k0
    · subst hk
      have hnone : alookup rest k = none := alookup_eq_none hnd.1
      have hcons : alookup ((k, v0) :: rest) k = some v0 := by simp [alookup]
      rw [hnone, hcons]
      show (if v0.isEmptyVal then task else task.set k v0) k = _
      cases hemp : v0.isEmptyVal
      · simp [TaskDict.set, hemp]
      · simp [hemp]
    · have hcons : alookup ((k0, v0) :: rest) k = alookup rest k := by
        simp [alookup, hk]
      rw [hcons]
      have hset : (if v0.isEmptyVal then task else task.set k0 v0) k = task k := by
        cases v0.isEmptyVal <;> simp [TaskDict.set, hk]
      cases halk : alookup rest k <;> simp [hset]

/-- C5: after `sync_tasks`, every key whose fetched value is `None` or
the empty string still holds its prior local value (fetched dictionaries
have unique keys, as Python dicts do). -/
theorem sync_tasks_never_overwrites_with_empty :
    ∀ (fetch : JValue → Option (List (String × JValue))) (task_list : List TaskDict)
      (i : Nat) (task : TaskDict),
      task_list[i]? = some task →
      ∃ task', (sync_tasks fetch task_list)[i]? = some task' ∧
        ∀ (jira_id : JValue) (jd : List (String × JValue)) (k : String) (v : JValue),
          task "jira_id" = some jira_id → fetch jira_id = some jd →
          (jd.map Prod.fst).Nodup → alookup jd k = some v → v.isEmptyVal = true →
          task' k = task k := by
  intro fetch task_list i task hget
  refine ⟨syncOne fetch task, ?_, ?_⟩
  · rw [sync_tasks, List.getElem?_map, hget]
    rfl
  · intro jid jd k v hjid hfetch hnd halk hemp
    simp only [syncOne, hjid]
    cases htr : jid.truthy
    · simp [htr]
    · simp only [htr, if_true, hfetch]
      rw [mergeJiraData_lookup task jd k hnd, halk]
      simp [hemp]

/-- Witness for C5: a task whose assignee is locally "Alice" keeps it
when the fetched assignee comes back as the empty string. -/
theorem sync_tasks_never_overwrites_with_empty_witness :
    ∃ task', (sync_tasks sampleFetch [sampleLocalTask])[0]? = some task' ∧
      task' "assignee" = some (.str "Alice") := by
  obtain ⟨task', h1, h2⟩ := sync_tasks_never_overwrites_with_empty sampleFetch
    [sampleLocalTask] 0 sampleLocalTask rfl
  refine ⟨task', h1, ?_⟩
  have hkeep := h2 (.str "PROJ-1") sampleFetched "assignee" (.str "")
    rfl rfl (by decide) rfl rfl
  rw [hkeep]
  rfl

/-! ## C6 — placeholders for missing optional fields -/

/-- C6 (counterexample): dumping the minimal valid record leaves
`technical_approach` present as the empty string, and the DOCX builder
then renders the fixed "Technical Approach" header with an empty body —
not with any placeholder text. -/
theorem docx_blank_string_field_not_placeholder :
    ((create_feature_dev_report (FeatureDevReportM.dump minimalFeatureDev)
        "2024-01-02").blocks)[13]? = some (.heading 1 "Technical Approach")
    ∧ ((create_feature_dev_report (FeatureDevReportM.dump minimalFeatureDev)
        "2024-01-02").blocks)[14]? = some (.para "")
    ∧ "" ∉ placeholderStrings :=
  ⟨rfl, rfl, by decide⟩

/-- C6 (amended): a data mapping with every optional key absent renders
every fixed section header with a placeholder body, and a record with
all optional lists empty still renders every fixed section header, with
placeholder bodies for all the list-valued sections; a present-but-empty
optional string renders an empty body instead. -/
theorem docx_placeholders_for_missing_and_empty :
    (∀ today : String,
      sectionTitlesOf (create_feature_dev_report emptyDocxData today).blocks =
        featureDevSectionTitles
      ∧ ((create_feature_dev_report emptyDocxData today).blocks)[4]? =
          some (.para "No summary provided.")
      ∧ ((create_feature_dev_report emptyDocxData today).blocks)[7]? =
          some (.para "No team members specified.")
      ∧ ((create_feature_dev_report emptyDocxData today).blocks)[10]? =
          some (.para "None specified.")
      ∧ ((create_feature_dev_report emptyDocxData today).blocks)[12]? =
          some (.para "None specified.")
      ∧ ((create_feature_dev_report emptyDocxData today).blocks)[14]? =
          some (.para "To be determined.")
      ∧ ((create_feature_dev_report emptyDocxData today).blocks)[17]? =
          some (.para "No tasks defined.")
      ∧ ((create_feature_dev_report emptyDocxData today).blocks)[20]? =
          some (.para "No milestones defined.")
      ∧ ((create_feature_dev_report emptyDocxData today).blocks)[23]? =
          some (.para "To be defined.")
      ∧ ((create_feature_dev_report emptyDocxData today).blocks)[26]? =
          some (.para "To be defined.")
      ∧ ((create_feature_dev_report emptyDocxData today).blocks)[29]? =
          some (.para "No risks identified.")
      ∧ ((create_feature_dev_report emptyDocxData today).blocks)[32]? =
          some (.para "None specified."))
    ∧ (∀ (t pn a dt v s fn ta an ts dp pns : String) (rep br sp : Option String)
        (today : String),
      sectionTitlesOf (allListsEmptyBlocks t pn a dt v s fn ta an ts dp pns rep br sp today) =
        featureDevSectionTitles
      ∧ containsSeg [.heading 1 "Team", .para "No team members specified."]
          (allListsEmptyBlocks t pn a dt v s fn ta an ts dp pns rep br sp today)
      ∧ containsSeg [.heading 1 "Objectives", .para "None specified."]
          (allListsEmptyBlocks t pn a dt v s fn ta an ts dp pns rep br sp today)
      ∧ containsSeg [.heading 1 "Requirements", .para "None specified."]
          (allListsEmptyBlocks t pn a dt v s fn ta an ts dp pns rep br sp today)
      ∧ containsSeg [.heading 1 "Tasks & Progress", .para "No tasks defined."]
          (allListsEmptyBlocks t pn a dt v s fn ta an ts dp pns rep br sp today)
      ∧ containsSeg [.heading 1 "Milestones", .para "No milestones defined."]
          (allListsEmptyBlocks t pn a dt v s fn ta an ts dp pns rep br sp today)
      ∧ containsSeg [.heading 1 "Risks & Mitigation", .para "No risks identified."]
          (allListsEmptyBlocks t pn a dt v s fn ta an ts dp pns rep br sp today)
      ∧ containsSeg [.heading 1 "Dependencies", .para "None specified."]
          (allListsEmptyBlocks t pn a dt v s fn ta an ts dp pns rep br sp today)) := by
  constructor
  · intro today
    exact ⟨rfl, rfl, rfl, rfl, rfl, rfl, rfl, rfl, rfl, rfl, rfl, rfl⟩
  · intro t pn a dt v s fn ta an ts dp pns rep br sp today
    refine ⟨?_, ?_, ?_, ?_, ?_, ?_, ?_, ?_⟩
    · show List.filterMap sectionTitleOfBlock _ = _
      simp only [allListsEmptyBlocks, allListsEmptyRecord, create_feature_dev_report,
        FeatureDevReportM.dump, List.filterMap_append, st_addList, st_addTable,
        st_metadataBlocks, st_teamSection, st_milestoneSection, st_riskDetailBlocks, st_ite]
      simp [sectionTitleOfBlock, featureDevSectionTitles]
    · exact containsSeg_appR _ (containsSeg_appR _ (containsSeg_appR _ (containsSeg_appR _
        (containsSeg_appR _ (containsSeg_appR _ (containsSeg_appR _ (containsSeg_appR _
        (containsSeg_appR _ (containsSeg_appR _ (containsSeg_appR _ (containsSeg_appR _
        (containsSeg_appR _ (containsSeg_appR _ (containsSeg_appR _ (containsSeg_appR _
        (containsSeg_appR _ (containsSeg_shift _ _ _ (containsSeg_head2 _ _ _))))))))))))))))))
    · exact containsSeg_appR _ (containsSeg_appR _ (containsSeg_appR _ (containsSeg_appR _
        (containsSeg_appR _ (containsSeg_appR _ (containsSeg_appR _ (containsSeg_appR _
        (containsSeg_appR _ (containsSeg_appR _ (containsSeg_appR _ (containsSeg_appR _
        (containsSeg_appR _ (containsSeg_appR _ (containsSeg_appR _
        (containsSeg_shift _ _ _ (containsSeg_head2 _ _ _))))))))))))))))
    · exact containsSeg_appR _ (containsSeg_appR _ (containsSeg_appR _ (containsSeg_appR _
        (containsSeg_appR _ (containsSeg_appR _ (containsSeg_appR _ (containsSeg_appR _
        (containsSeg_appR _ (containsSeg_appR _ (containsSeg_appR _ (containsSeg_appR _
        (containsSeg_appR _ (containsSeg_shift _ _ _ (containsSeg_head2 _ _ _))))))))))))))
    · exact containsSeg_appR _ (containsSeg_appR _ (containsSeg_appR _ (containsSeg_appR _
        (containsSeg_appR _ (containsSeg_appR _ (containsSeg_appR _ (containsSeg_appR _
        (containsSeg_appR _ (containsSeg_shift _ _ _ (containsSeg_head2 _ _ _))))))))))
    · exact containsSeg_appR _ (containsSeg_appR _ (containsSeg_appR _ (containsSeg_appR _
        (containsSeg_appR _ (containsSeg_appR _
        (containsSeg_shift _ _ _ (containsSeg_head2 _ _ _)))))))
    · exact containsSeg_appR _ (containsSeg_appR _
        (containsSeg_shift _ _ _ (containsSeg_head2 _ _ _)))
    · exact containsSeg_shift _ _ _ (containsSeg_head2 _ _ _)

/-! ## C3 — identical populated sections across all projectors -/

/-- The `filterMap` over a flattened map with singleton extractions. -/
theorem filterMap_flatten_map {α β : Type} (g : α → List Block) (f : Block → Option β)
    (m : α → β) (l : List α) (h : ∀ a, (g a).filterMap f = [m a]) :
    ((l.map g).flatten).filterMap f = l.map m := by
  induction l with
  | nil => rfl
  | cons a t ih => simp [List.filterMap_append, h, ih]

/-- Headings of a bulleted list body: none. -/
theorem headings_addList (items : List String) :
    (addList items).filterMap headingOfBlock = [] := by
  unfold addList
  split
  · rfl
  · rw [List.filterMap_append, List.filterMap_map,
      filterMap_const_none (headingOfBlock ∘ Block.bullet) items (fun a => rfl)]
    rfl

/-- Headings of a markdown list body: none. -/
theorem headings_mdList (items : List String) :
    (mdList items).filterMap headingOfBlock = [] := by
  unfold mdList
  split
  · rfl
  · rw [List.filterMap_map]
    exact filterMap_const_none (headingOfBlock ∘ Block.bullet) items (fun a => rfl)

/-- Headings of a table body: none. -/
theorem headings_addTable (headers : List String) (rows : List (List String)) :
    (addTable headers rows).filterMap headingOfBlock = [] := by
  unfold addTable
  split <;> rfl

/-- Headings of the metadata table: none. -/
theorem headings_metadataBlocks (d : DocxData) :
    (metadataBlocks d).filterMap headingOfBlock = [] := rfl

/-- Headings of the markdown metadata lines: none. -/
theorem headings_mdMetadataLines (d : DocxData) :
    (mdMetadataLines d).filterMap headingOfBlock = [] := by
  unfold mdMetadataLines
  rw [List.filterMap_map]
  exact filterMap_const_none _ _ (fun a => rfl)

/-- Headings of the team section body: none. -/
theorem headings_teamSection (d : DocxData) :
    (teamSection d).filterMap headingOfBlock = [] := by
  unfold teamSection
  dsimp only
  split
  · rfl
  · exact headings_addTable ..

/-- Headings of the milestone section body: none. -/
theorem headings_milestoneSection (d : DocxData) :
    (milestoneSection d).filterMap headingOfBlock = [] := by
  unfold milestoneSection
  dsimp only
  split
  · rfl
  · exact headings_addTable ..

/-- Heading extraction commutes with `if`. -/
theorem headings_ite (c : Prop) [Decidable c] (a b : List Block) :
    (if c then a else b).filterMap headingOfBlock =
      if c then a.filterMap headingOfBlock else b.filterMap headingOfBlock :=
  apply_ite ..

/-- The headings of the detailed risk entries: one numbered level-2
heading per risk. -/
theorem headings_riskDetailBlocks (rs : List RiskData) :
    (riskDetailBlocks rs).filterMap headingOfBlock = rs.enum.map riskHeadingEntry := by
  unfold riskDetailBlocks
  exact filterMap_flatten_map _ _ _ _ (fun p => rfl)

/-- The headings of the markdown risk entries: the same per-risk
level-2 headings. -/
theorem headings_mdRiskFlatten (rs : List RiskData) :
    ((rs.enum.map mdRiskEntry).flatten).filterMap headingOfBlock =
      rs.enum.map riskHeadingEntry :=
  filterMap_flatten_map mdRiskEntry headingOfBlock riskHeadingEntry rs.enum (fun _ => rfl)

/-- The headings of one engineering-init phase entry: its level-2
phase heading. -/
theorem headings_phaseBlocks (i : Nat) (ph : PhaseData) :
    (phaseBlocks i ph).filterMap headingOfBlock =
      [(2, "Phase " ++ toString i ++ ": " ++ ph.name.getD ("Phase " ++ toString i))] := by
  unfold phaseBlocks
  rw [List.filterMap_append, List.filterMap_append, List.filterMap_append]
  have h1 : ∀ (c : Bool) (x : String),
      (if c = true then [Block.para x] else []).filterMap headingOfBlock = [] := by
    intro c x
    cases c <;> rfl
  have h2 : ((match ph.deliverables with
      | .present ds => if ds ≠ [] then [Block.para "Deliverables:"] ++ addList ds else []
      | .absent => []) : List Block).filterMap headingOfBlock = [] := by
    cases ph.deliverables with
    | absent => rfl
    | present ds =>
      dsimp only
      split
      · rw [List.filterMap_append, headings_addList]
        rfl
      · rfl
  rw [h1, h1, h2]
  rfl

/-- The headings of one markdown implementation-phase entry: its
level-2 phase heading. -/
theorem headings_mdPhaseEntry (p : Nat × PhaseData) :
    (mdPhaseEntry p).filterMap headingOfBlock = [phaseHeadingEntry p] := by
  unfold mdPhaseEntry
  rw [List.filterMap_append, List.filterMap_append, List.filterMap_append]
  have h1 : ∀ (c : Bool) (x : String),
      (if c = true then [Block.para x] else []).filterMap headingOfBlock = [] := by
    intro c x
    cases c <;> rfl
  have h2 : ((match p.2.deliverables with
      | .present ds => if ds ≠ [] then ds.map Block.bullet else []
      | .absent => []) : List Block).filterMap headingOfBlock = [] := by
    cases hds : p.2.deliverables with
    | absent => rfl
    | present ds =>
      dsimp only
      split
      · rw [List.filterMap_map]
        exact filterMap_const_none (headingOfBlock ∘ Block.bullet) ds (fun a => rfl)
      · rfl
  rw [h1, h1, h2]
  rfl

/-- The headings of the DOCX implementation-phase entries: one level-2
phase heading each. -/
theorem headings_phasesFlatten (phases : List PhaseData) :
    ((phases.enum.map (fun p => phaseBlocks (p.1 + 1) p.2)).flatten).filterMap headingOfBlock =
      phases.enum.map phaseHeadingEntry :=
  filterMap_flatten_map _ _ _ _ (fun p => headings_phaseBlocks (p.1 + 1) p.2)

/-- The headings of the markdown implementation-phase entries. -/
theorem headings_mdPhasesFlatten (phases : List PhaseData) :
    ((phases.enum.map mdPhaseEntry).flatten).filterMap headingOfBlock =
      phases.enum.map phaseHeadingEntry :=
  filterMap_flatten_map _ _ _ _ headings_mdPhaseEntry

/-- The `markdown.markdown` heading conversion: extracting `<h{n+1}>`
headings from the converted document recovers the markdown headings. -/
theorem htmlOfBlocks_preserves_headings (blocks : List Block) :
    htmlHeadingsOf (htmlOfBlocks blocks) = headingsOf blocks := by
  unfold htmlHeadingsOf htmlOfBlocks headingsOf
  rw [List.filterMap_map]
  apply List.filterMap_congr
  intro b _
  cases b <;> simp [headingOfNode, blockToHtml, headingOfBlock]

/-- The DOCX feature-dev builder produces exactly the feature-dev
heading spine. -/
theorem headings_feature_dev_docx (d : DocxData) (today : String) :
    headingsOf (create_feature_dev_report d today).blocks = featureDevHeadingSpine d := by
  simp only [headingsOf, create_feature_dev_report, featureDevHeadingSpine,
    List.filterMap_append, headings_addList, headings_addTable, headings_metadataBlocks,
    headings_teamSection, headings_milestoneSection, headings_riskDetailBlocks, headings_ite,
    List.filterMap_cons, List.filterMap_nil, headingOfBlock]
  simp [List.append_assoc, ite_self]

/-- The modelled markdown feature-dev template produces the same
heading spine. -/
theorem headings_feature_dev_md (d : DocxData) :
    headingsOf (mdTemplateFeatureDev d) = featureDevHeadingSpine d := by
  simp only [headingsOf, mdTemplateFeatureDev, featureDevHeadingSpine,
    List.filterMap_append, headings_mdList, headings_addTable, headings_mdMetadataLines,
    headings_mdRiskFlatten, headings_ite,
    List.filterMap_cons, List.filterMap_nil, headingOfBlock]
  simp [List.append_assoc, ite_self]

/-- The DOCX program-management builder produces exactly the
program-management heading spine. -/
theorem headings_program_mgmt_docx (d : DocxData) (today : String) :
    headingsOf (create_program_mgmt_report d today).blocks = programMgmtHeadingSpine d := by
  simp only [headingsOf, create_program_mgmt_report, programMgmtHeadingSpine,
    List.filterMap_append, headings_addList, headings_addTable, headings_metadataBlocks,
    headings_teamSection, headings_milestoneSection, headings_ite,
    List.filterMap_cons, List.filterMap_nil, headingOfBlock]
  simp [List.append_assoc, ite_self]

/-- The modelled markdown program-management template produces the same
heading spine. -/
theorem headings_program_mgmt_md (d : DocxData) :
    headingsOf (mdTemplateProgramMgmt d) = programMgmtHeadingSpine d := by
  simp only [headingsOf, mdTemplateProgramMgmt, programMgmtHeadingSpine,
    List.filterMap_append, headings_mdList, headings_addTable, headings_mdMetadataLines,
    headings_ite, List.filterMap_cons, List.filterMap_nil, headingOfBlock]
  simp [List.append_assoc, ite_self]

/-- The DOCX engineering-initiative builder produces exactly the
engineering-initiative heading spine. -/
theorem headings_engineering_init_docx (d : DocxData) (today : String) :
    headingsOf (create_engineering_init_report d today).blocks =
      engineeringInitHeadingSpine d := by
  simp only [headingsOf, create_engineering_init_report, engineeringInitHeadingSpine,
    List.filterMap_append, headings_addList, headings_addTable, headings_metadataBlocks,
    headings_teamSection, headings_milestoneSection, headings_riskDetailBlocks,
    headings_phasesFlatten, headings_ite,
    List.filterMap_cons, List.filterMap_nil, headingOfBlock]
  simp [List.append_assoc, ite_self]

/-- The modelled markdown engineering-initiative template produces the
same heading spine. -/
theorem headings_engineering_init_md (d : DocxData) :
    headingsOf (mdTemplateEngineeringInit d) = engineeringInitHeadingSpine d := by
  simp only [headingsOf, mdTemplateEngineeringInit, engineeringInitHeadingSpine,
    List.filterMap_append, headings_mdList, headings_addTable, headings_mdMetadataLines,
    headings_mdRiskFlatten, headings_mdPhasesFlatten, headings_ite,
    List.filterMap_cons, List.filterMap_nil, headingOfBlock]
  simp [List.append_assoc, ite_self]

/-- C3: for every record of each report kind, the markdown projection,
its HTML conversion, and the rich-document (DOCX) projection contain
the same ordered headings; only the surface encoding differs. -/
theorem projectors_agree_on_sections :
    ∀ (d : DocxData) (today : String),
      (headingsOf (mdTemplateFeatureDev d) =
          headingsOf (create_feature_dev_report d today).blocks
        ∧ htmlHeadingsOf (htmlOfBlocks (mdTemplateFeatureDev d)) =
          headingsOf (mdTemplateFeatureDev d))
      ∧ (headingsOf (mdTemplateProgramMgmt d) =
          headingsOf (create_program_mgmt_report d today).blocks
        ∧ htmlHeadingsOf (htmlOfBlocks (mdTemplateProgramMgmt d)) =
          headingsOf (mdTemplateProgramMgmt d))
      ∧ (headingsOf (mdTemplateEngineeringInit d) =
          headingsOf (create_engineering_init_report d today).blocks
        ∧ htmlHeadingsOf (htmlOfBlocks (mdTemplateEngineeringInit d)) =
          headingsOf (mdTemplateEngineeringInit d)) :=
  fun d today =>
    ⟨⟨(headings_feature_dev_md d).trans (headings_feature_dev_docx d today).symm,
      htmlOfBlocks_preserves_headings _⟩,
     ⟨(headings_program_mgmt_md d).trans (headings_program_mgmt_docx d today).symm,
      htmlOfBlocks_preserves_headings _⟩,
     ⟨(headings_engineering_init_md d).trans (headings_engineering_init_docx d today).symm,
      htmlOfBlocks_preserves_headings _⟩⟩

end ReportTemplate
